import Mathlib

/-!
Shallow embedding of the liquid-handling coordinator (coordinator.py) of the
Nanotrons robot-control software, together with theorems about its unit
conversions, motion sequencing, lid gating, wash protocols and depth override.

Modelling conventions:
- machine floats are idealised as exact rationals; the float constant math.pi
  is idealised as the rational value of the IEEE double 3.141592653589793;
- Python exceptions are modelled with an explicit error type on Except;
  the error type also carries the error kinds named by the documentation
  (ConversionError, ConfigurationError) so that theorems can speak about them,
  even though the code itself raises only a division-by-zero;
- calls issued to the motor and thermocycler drivers are recorded as a trace
  of events, and the coordinator-visible motor state (gantry position and the
  thermocycler lid flag) is threaded explicitly;
- deck-slot identifiers are modelled by their numeric value (the code converts
  the slot string with float()); the deck map (deck.py, whose slot-center
  table is not among the sources here) is passed as an explicit function
  argument, so every theorem holds for an arbitrary deck map.
-/

/-- Constant UNIT_CONVERSION = 4 from coordinator.py (empirical correction). -/
def UNIT_CONVERSION : ℚ := 4

/-- Constant FROM_NANOLITERS = 0.001 from coordinator.py. -/
def FROM_NANOLITERS : ℚ := 1 / 1000

/-- Constant DEFAULT_RATE = 50 nL/sec from coordinator.py. -/
def DEFAULT_RATE : ℚ := 50

/-- Constant AIR_GAP_NL_AMOUNT = 50 nL from coordinator.py. -/
def AIR_GAP_NL_AMOUNT : ℚ := 50

/-- Constant AIR_GAP_ASPIRATING_Z_STEP_DISTANCE = 25 from coordinator.py. -/
def AIR_GAP_ASPIRATING_Z_STEP_DISTANCE : ℚ := 25

/-- Constant POSITION_IN_Z_TO_PLACE_WHEN_GOING_TO_SLOT = 150 from coordinator.py. -/
def POSITION_IN_Z_TO_PLACE_WHEN_GOING_TO_SLOT : ℚ := 150

/-- Constant PIPPETE_POSITION_WHEN_MOVING_TC_LID = 5 (deck slot) from coordinator.py. -/
def PIPPETE_POSITION_WHEN_MOVING_TC_LID : ℚ := 5

/-- Rational idealisation of the Python float constant math.pi. -/
def mathPi : ℚ := 3.141592653589793

/-- Syringe model parameters, as read from a syringe model file by
Coordinator via ModelsManager.get_model_parameters. -/
structure SyringeParams where
  inner_diameter : ℚ
  lower_syringe_limit : ℚ
  upper_syringe_limit : ℚ
  sweetspot_on_syringe : ℚ
  deriving DecidableEq

/-- Error kinds: zeroDivisionError models the Python ZeroDivisionError that
float division by zero raises; conversionError and configurationError are the
error kinds named by the documentation (the code defines neither). -/
inductive PyError
  | zeroDivisionError
  | conversionError
  | configurationError
  deriving DecidableEq

/-- Embedding of Coordinator.volume_to_distance_converter: converts a volume
in nanoliters into a plunger travel distance in millimeters using the loaded
syringe inner diameter.  The source performs a plain float division by the
cross-section area with no validity check, so a zero area raises a
division-by-zero and every nonzero diameter (of either sign) succeeds. -/
def volume_to_distance_converter (syringe : SyringeParams) (volume : ℚ) :
    Except PyError ℚ :=
  let diameter := syringe.inner_diameter
  let radius := diameter / 2
  let area := mathPi * radius * radius
  if area = 0 then Except.error PyError.zeroDivisionError
  else
    let distance_in_mm := volume * FROM_NANOLITERS / area
    Except.ok (distance_in_mm * UNIT_CONVERSION)

/-- Embedding of Coordinator.flowrate_to_speed_converter: converts a flow
rate in nanoliters per second into a plunger speed, via the same area-based
formula as the volume converter. -/
def flowrate_to_speed_converter (syringe : SyringeParams) (rate : ℚ) :
    Except PyError ℚ :=
  let diameter := syringe.inner_diameter
  let radius := diameter / 2
  let area := mathPi * radius * radius
  if area = 0 then Except.error PyError.zeroDivisionError
  else Except.ok (rate * FROM_NANOLITERS / area * UNIT_CONVERSION)

/-- Python int() truncation toward zero, applied to a rational. -/
def pyInt (q : ℚ) : ℤ := if 0 ≤ q then ⌊q⌋ else ⌈q⌉

/-- Gantry coordinate (millimeters per axis). -/
structure Point where
  x : ℚ
  y : ℚ
  z : ℚ
  deriving DecidableEq

/-- Calls the coordinator issues to the motor and thermocycler drivers.
moveTo records the location object passed to ot_control.move_to (None when an
unset washing position is passed through); movePlunger records
ot_control.move on the B axis; plungerUp and plungerDown record
ot_control.plunger_L_Up and plunger_L_Down; deviceOpenLid and deviceCloseLid
record tc_control.open() and tc_control.close(). -/
inductive Event
  | moveTo (location : Option Point)
  | movePlunger (position speed : ℚ)
  | plungerUp (distance speed : ℚ)
  | plungerDown (distance speed : ℚ)
  | deviceOpenLid
  | deviceCloseLid
  deriving DecidableEq

/-- Coordinator-tracked thermocycler lid flag (ot_control.tc_lid_flag). -/
inductive LidFlag
  | unknown
  | opened
  | closed
  deriving DecidableEq

/-- Coordinator-visible motor state: current gantry position and lid flag. -/
structure MotorState where
  pos : Point
  lidFlag : LidFlag
  deriving DecidableEq

/-- Embedding of Coordinator.go_to_position: a single call to
ot_control.move_to with the given location.  The gantry position becomes the
target when one is given (a None location is passed through to the driver
unchanged and leaves the modelled position alone). -/
def go_to_position (s : MotorState) (location : Option Point) :
    MotorState × List Event :=
  ({ s with pos := location.getD s.pos }, [Event.moveTo location])

/-- Embedding of Coordinator.pick_up_liquid: converts rate to speed, volume
to displacement, then commands the left plunger up. -/
def pick_up_liquid (syringe : SyringeParams) (volume rate : ℚ) :
    Except PyError Event := do
  let speed ← flowrate_to_speed_converter syringe rate
  let step_displacement ← volume_to_distance_converter syringe volume
  return Event.plungerUp step_displacement speed

/-- Embedding of Coordinator.drop_off_liquid: converts rate to speed, volume
to displacement, then commands the left plunger down. -/
def drop_off_liquid (syringe : SyringeParams) (volume rate : ℚ) :
    Except PyError Event := do
  let speed ← flowrate_to_speed_converter syringe rate
  let step_displacement ← volume_to_distance_converter syringe volume
  return Event.plungerDown step_displacement speed

/-- Embedding of Coordinator.aspirate: truncates the volume with int() and
delegates to pick_up_liquid. -/
def aspirate (syringe : SyringeParams) (volume rate : ℚ) : Except PyError Event :=
  pick_up_liquid syringe ((pyInt volume : ℤ) : ℚ) rate

/-- Embedding of Coordinator.dispense: truncates the volume with int() and
delegates to drop_off_liquid. -/
def dispense (syringe : SyringeParams) (volume rate : ℚ) : Except PyError Event :=
  drop_off_liquid syringe ((pyInt volume : ℤ) : ℚ) rate

/-- Embedding of Coordinator.move_plunger: a direct B-axis move at the given
speed. -/
def move_plunger (position speed : ℚ) : Event :=
  Event.movePlunger position speed

/-- Embedding of Coordinator.air_gap: lift the Z axis by the fixed clearance
from the current position, then aspirate AIR_GAP_NL_AMOUNT at DEFAULT_RATE. -/
def air_gap (syringe : SyringeParams) (s : MotorState) :
    Except PyError (MotorState × List Event) := do
  let r := go_to_position s (some
    { x := s.pos.x, y := s.pos.y,
      z := s.pos.z + AIR_GAP_ASPIRATING_Z_STEP_DISTANCE })
  let e ← aspirate syringe AIR_GAP_NL_AMOUNT DEFAULT_RATE
  return (r.1, r.2 ++ [e])

/-- Washing-position configuration of the coordinator: the three water
positions, each Option because __init__ initialises them to None. -/
structure WashConfig where
  clean_water : Option Point
  wash_water : Option Point
  waste_water : Option Point
  deriving DecidableEq

/-- Washing positions as initialised by Coordinator.__init__ (all None). -/
def initial_wash_config : WashConfig :=
  { clean_water := none, wash_water := none, waste_water := none }

/-- Embedding of Coordinator.set_washing_positions. -/
def set_washing_positions (clean wash waste : Point) : WashConfig :=
  { clean_water := some clean, wash_water := some wash, waste_water := some waste }

/-- Embedding of Coordinator.start_wash: waste then plunger bottom, wash then
plunger top then bottom, clean then plunger sweet spot, then air gap.  The
flow-rate conversion happens once, before any motion. -/
def start_wash (syringe : SyringeParams) (cfg : WashConfig) (s : MotorState)
    (rate : ℚ) : Except PyError (MotorState × List Event) := do
  let syringe_bottom_coordinate := syringe.lower_syringe_limit
  let syringe_top_coordinate := syringe.upper_syringe_limit
  let syringe_sweet_spot_coordinate := syringe.sweetspot_on_syringe
  let speed ← flowrate_to_speed_converter syringe rate
  let r1 := go_to_position s cfg.waste_water
  let e1 := move_plunger syringe_bottom_coordinate speed
  let r2 := go_to_position r1.1 cfg.wash_water
  let e2 := move_plunger syringe_top_coordinate speed
  let e3 := move_plunger syringe_bottom_coordinate speed
  let r3 := go_to_position r2.1 cfg.clean_water
  let e4 := move_plunger syringe_sweet_spot_coordinate speed
  let r4 ← air_gap syringe r3.1
  return (r4.1, r1.2 ++ [e1] ++ r2.2 ++ [e2, e3] ++ r3.2 ++ [e4] ++ r4.2)

/-- Embedding of Coordinator.mid_wash: waste then dispense the leftover, wash
then aspirate amount wanted plus cushion 1 and dispense amount wanted plus
cushion 2, clean then plunger sweet spot, then air gap. -/
def mid_wash (syringe : SyringeParams) (cfg : WashConfig) (amount_wanted : ℚ)
    (s : MotorState) (left_over cushion_1 cushion_2 rate : ℚ) :
    Except PyError (MotorState × List Event) := do
  let syringe_sweet_spot_coordinate := syringe.sweetspot_on_syringe
  let speed ← flowrate_to_speed_converter syringe rate
  let r1 := go_to_position s cfg.waste_water
  let e1 ← dispense syringe left_over rate
  let r2 := go_to_position r1.1 cfg.wash_water
  let e2 ← aspirate syringe (amount_wanted + cushion_1) rate
  let e3 ← dispense syringe (amount_wanted + cushion_2) rate
  let r3 := go_to_position r2.1 cfg.clean_water
  let e4 := move_plunger syringe_sweet_spot_coordinate speed
  let r4 ← air_gap syringe r3.1
  return (r4.1, r1.2 ++ [e1] ++ r2.2 ++ [e2, e3] ++ r3.2 ++ [e4] ++ r4.2)

/-- Embedding of Coordinator.fill_syringe_with_water: clean-water position,
then plunger to the upper syringe limit. -/
def fill_syringe_with_water (syringe : SyringeParams) (cfg : WashConfig)
    (s : MotorState) (rate : ℚ) : Except PyError (MotorState × List Event) := do
  let upper_syringe_limit := syringe.upper_syringe_limit
  let speed ← flowrate_to_speed_converter syringe rate
  let r1 := go_to_position s cfg.clean_water
  let e1 := move_plunger upper_syringe_limit speed
  return (r1.1, r1.2 ++ [e1])

/-- Slot target used by Coordinator.go_to_deck_slot: the X and Y of the deck
map slot center at the fixed safe Z height. -/
def slot_location (get_slot_center : ℚ → ℚ × ℚ) (slot : ℚ) : Point :=
  { x := (get_slot_center slot).1, y := (get_slot_center slot).2,
    z := POSITION_IN_Z_TO_PLACE_WHEN_GOING_TO_SLOT }

/-- Embedding of Coordinator.open_lid: if the lid flag is not yet open, first
repark the pipette at deck slot 5 (slot 5 is not thermocycler-adjacent, so
that inner go_to_deck_slot call is a plain go_to_position); then issue the
device-level open command unconditionally and set the lid flag to open. -/
def open_lid (get_slot_center : ℚ → ℚ × ℚ) (s : MotorState) :
    MotorState × List Event :=
  if s.lidFlag ≠ LidFlag.opened then
    let r := go_to_position s
      (some (slot_location get_slot_center PIPPETE_POSITION_WHEN_MOVING_TC_LID))
    ({ r.1 with lidFlag := LidFlag.opened }, r.2 ++ [Event.deviceOpenLid])
  else
    ({ s with lidFlag := LidFlag.opened }, [Event.deviceOpenLid])

/-- Embedding of Coordinator.go_to_deck_slot: for the thermocycler-adjacent
slots 7, 8, 10 and 11 the move is preceded by open_lid and the final
translate is issued only if the lid flag reads open afterwards; every other
slot moves unconditionally. -/
def go_to_deck_slot (get_slot_center : ℚ → ℚ × ℚ) (s : MotorState)
    (slot : ℚ) : MotorState × List Event :=
  let location := slot_location get_slot_center slot
  if slot = 7 ∨ slot = 8 ∨ slot = 10 ∨ slot = 11 then
    let r1 := open_lid get_slot_center s
    if r1.1.lidFlag = LidFlag.opened then
      let r2 := go_to_position r1.1 (some location)
      (r2.1, r1.2 ++ r2.2)
    else r1
  else
    go_to_position s (some location)

/-- Low-level motor directives of the three-phase driver move. -/
inductive Directive
  | liftZ
  | translateXY (x y : ℚ)
  | descendZ (z : ℚ)
  deriving DecidableEq

/-- Modelled from the spec: OT2_nanotrons_driver.move_to (drivers/OTdriver.py
is not among the sources here).  Per the spec it always performs a three-phase
safety move: lift the vertical axis to a safe height, translate the
horizontal X and Y axes, then descend to the target vertical coordinate. -/
def driver_move_to (location : Point) : List Directive :=
  [Directive.liftZ, Directive.translateXY location.x location.y,
   Directive.descendZ location.z]

/-- Directive-level view of Coordinator.go_to_position, whose body is the
single call ot_control.move_to(location). -/
def go_to_position_directives (location : Point) : List Directive :=
  driver_move_to location

/-- Depth argument accepted by Coordinator.set_plate_depth: either the
sentinel string PLATE_DEPTH, a Python int, or any other numeric value (a
Python float), which the type(depth) == int test distinguishes. -/
inductive DepthArg
  | plateDepthSentinel
  | intDepth (n : ℤ)
  | floatDepth (q : ℚ)
  deriving DecidableEq

/-- Embedding of Coordinator.set_plate_depth, with the nominal plate depth
(the first entry of the labware model depth list) passed in directly: the
sentinel yields the default depth minus 1; an int strictly below the default
is returned unchanged; every other argument yields None.  The inner
greater-than branch of the source is dead code (its guard repeats the outer
conjunct), so it never produces the printed fallback. -/
def set_plate_depth (plate_default_depth : ℚ) : DepthArg → Option ℚ
  | DepthArg.plateDepthSentinel => some (plate_default_depth - 1)
  | DepthArg.intDepth n =>
      if (n : ℚ) < plate_default_depth then some ((n : ℚ)) else none
  | DepthArg.floatDepth _ => none

/-- Shared closed form of both converters for a nonzero diameter. -/
def conv_formula (diameter value : ℚ) : ℚ :=
  value * FROM_NANOLITERS / (mathPi * (diameter / 2) * (diameter / 2)) *
    UNIT_CONVERSION

/-- Success test for an embedded Python call. -/
def isOkE {α : Type} : Except PyError α → Bool
  | Except.ok _ => true
  | Except.error _ => false

/-- First driver call of an embedded run, when the run succeeds. -/
def trace_head : Except PyError (MotorState × List Event) → Option Event
  | Except.ok r => r.2.head?
  | Except.error _ => none

/-- Concrete 1.75 mm syringe with plunger bottom 0, top 100, sweet spot 50. -/
def p175 : SyringeParams :=
  { inner_diameter := 7 / 4, lower_syringe_limit := 0,
    upper_syringe_limit := 100, sweetspot_on_syringe := 50 }

/-- Concrete syringe with the impossible inner diameter -1. -/
def pNeg : SyringeParams :=
  { inner_diameter := -1, lower_syringe_limit := 0,
    upper_syringe_limit := 100, sweetspot_on_syringe := 50 }

/-- Concrete motor state at the origin with the lid flag unknown. -/
def s_origin : MotorState :=
  { pos := { x := 0, y := 0, z := 0 }, lidFlag := LidFlag.unknown }

/-- Concrete motor state at the origin with the lid flag already open. -/
def s_open : MotorState :=
  { pos := { x := 0, y := 0, z := 0 }, lidFlag := LidFlag.opened }

/-- Concrete deck map used to instantiate theorems about slot navigation. -/
def test_deck : ℚ → ℚ × ℚ := fun slot => (slot, 2 * slot)

/-- Syringe parameters of the start-wash test scenario: plunger bottom 0,
top 100, sweet spot 50, with an arbitrary inner diameter d. -/
def wash_scenario_syringe (d : ℚ) : SyringeParams :=
  { inner_diameter := d, lower_syringe_limit := 0,
    upper_syringe_limit := 100, sweetspot_on_syringe := 50 }

/-- Washing positions of the start-wash test scenario: waste at the origin,
wash at x = 10, clean at x = 20. -/
def wash_scenario_config : WashConfig :=
  set_washing_positions { x := 20, y := 0, z := 0 } { x := 10, y := 0, z := 0 }
    { x := 0, y := 0, z := 0 }

/-- The rational idealisation of math.pi is nonzero. -/
theorem mathPi_ne_zero : mathPi ≠ 0 := by norm_num [mathPi]

/-- The syringe cross-section area computed by the converters vanishes
exactly for diameter zero. -/
theorem area_eq_zero_iff (d : ℚ) : mathPi * (d / 2) * (d / 2) = 0 ↔ d = 0 := by
  constructor
  · intro h
    rcases mul_eq_zero.mp h with h1 | h1
    · rcases mul_eq_zero.mp h1 with h2 | h2
      · exact absurd h2 mathPi_ne_zero
      · field_simp at h2; exact h2
    · field_simp at h1; exact h1
  · intro h; simp [h]

/-- A nonzero diameter gives a nonzero cross-section area. -/
theorem area_ne_zero {d : ℚ} (hd : d ≠ 0) : mathPi * (d / 2) * (d / 2) ≠ 0 :=
  fun h => hd ((area_eq_zero_iff d).mp h)

/-- Bind on a successful embedded call reduces to the continuation. -/
theorem except_bind_ok {α β : Type} (a : α) (f : α → Except PyError β) :
    (Except.ok a >>= f : Except PyError β) = f a := rfl

/-- Bind on a failed embedded call propagates the error. -/
theorem except_bind_error {α β : Type} (e : PyError) (f : α → Except PyError β) :
    (Except.error e >>= f : Except PyError β) = Except.error e := rfl

/-- Pure is the successful embedded result. -/
theorem except_pure {α : Type} (a : α) :
    (pure a : Except PyError α) = Except.ok a := rfl

/-- With a nonzero diameter the flow-rate converter returns the shared
closed-form value. -/
theorem f2s_ok {syringe : SyringeParams} (hd : syringe.inner_diameter ≠ 0)
    (r : ℚ) :
    flowrate_to_speed_converter syringe r =
      Except.ok (conv_formula syringe.inner_diameter r) := by
  unfold flowrate_to_speed_converter conv_formula
  rw [if_neg (area_ne_zero hd)]

/-- With a nonzero diameter the volume converter returns the shared
closed-form value. -/
theorem v2d_ok {syringe : SyringeParams} (hd : syringe.inner_diameter ≠ 0)
    (v : ℚ) :
    volume_to_distance_converter syringe v =
      Except.ok (conv_formula syringe.inner_diameter v) := by
  unfold volume_to_distance_converter conv_formula
  rw [if_neg (area_ne_zero hd)]

/-- With diameter zero the flow-rate converter raises a division by zero. -/
theorem f2s_error {syringe : SyringeParams} (hd : syringe.inner_diameter = 0)
    (r : ℚ) :
    flowrate_to_speed_converter syringe r =
      Except.error PyError.zeroDivisionError := by
  unfold flowrate_to_speed_converter
  rw [if_pos ((area_eq_zero_iff _).mpr hd)]

/-- With diameter zero the volume converter raises a division by zero. -/
theorem v2d_error {syringe : SyringeParams} (hd : syringe.inner_diameter = 0)
    (v : ℚ) :
    volume_to_distance_converter syringe v =
      Except.error PyError.zeroDivisionError := by
  unfold volume_to_distance_converter
  rw [if_pos ((area_eq_zero_iff _).mpr hd)]

/-- With a nonzero diameter, aspirate commands a plunger-up step whose
distance converts the truncated volume. -/
theorem aspirate_ok {syringe : SyringeParams} (hd : syringe.inner_diameter ≠ 0)
    (v r : ℚ) :
    aspirate syringe v r =
      Except.ok (Event.plungerUp
        (conv_formula syringe.inner_diameter ((pyInt v : ℤ) : ℚ))
        (conv_formula syringe.inner_diameter r)) := by
  unfold aspirate pick_up_liquid
  rw [f2s_ok hd, except_bind_ok, v2d_ok hd, except_bind_ok]
  rfl

/-- With a nonzero diameter, dispense commands a plunger-down step whose
distance converts the truncated volume. -/
theorem dispense_ok {syringe : SyringeParams} (hd : syringe.inner_diameter ≠ 0)
    (v r : ℚ) :
    dispense syringe v r =
      Except.ok (Event.plungerDown
        (conv_formula syringe.inner_diameter ((pyInt v : ℤ) : ℚ))
        (conv_formula syringe.inner_diameter r)) := by
  unfold dispense drop_off_liquid
  rw [f2s_ok hd, except_bind_ok, v2d_ok hd, except_bind_ok]
  rfl

/-- Python int() truncation is the identity on integers. -/
theorem pyInt_intCast (n : ℤ) : pyInt ((n : ℤ) : ℚ) = n := by
  unfold pyInt
  split_ifs <;> simp

/-- After open_lid the coordinator lid flag always reads open. -/
theorem open_lid_flag (gsc : ℚ → ℚ × ℚ) (s : MotorState) :
    (open_lid gsc s).1.lidFlag = LidFlag.opened := by
  unfold open_lid
  split <;> rfl

/-- Every open_lid run issues the device-level open command. -/
theorem open_lid_mem_device (gsc : ℚ → ℚ × ℚ) (s : MotorState) :
    Event.deviceOpenLid ∈ (open_lid gsc s).2 := by
  unfold open_lid
  split
  · exact List.mem_append_right _ (List.mem_singleton.mpr rfl)
  · exact List.mem_singleton.mpr rfl

/-- C1: for every loaded syringe model and every numeric argument r,
flowrate_to_speed_converter returns exactly the same result as
volume_to_distance_converter on r — the two converters are the same function
of their first argument (unit-identity invariant), including their failure
behaviour. -/
theorem converters_unit_identity (syringe : SyringeParams) (r : ℚ) :
    flowrate_to_speed_converter syringe r =
      volume_to_distance_converter syringe r := rfl

/-- C2: for every syringe with inner diameter d greater than 0 and every
volume v, volume_to_distance_converter returns exactly
(v times 0.001) / (pi times (d/2) squared) times the correction constant
K = 4; volume 0 maps to distance 0; and for d = 1.75 and v = 1000 the
result (on the same formula) is within 0.01 of 1.664 mm. -/
theorem volume_to_distance_formula :
    (∀ (syringe : SyringeParams) (v : ℚ), 0 < syringe.inner_diameter →
      volume_to_distance_converter syringe v =
        Except.ok (v * (1 / 1000) /
          (mathPi * (syringe.inner_diameter / 2) ^ 2) * 4))
    ∧ (∀ syringe : SyringeParams, 0 < syringe.inner_diameter →
      volume_to_distance_converter syringe 0 = Except.ok 0)
    ∧ volume_to_distance_converter p175 1000 =
        Except.ok (1000 * (1 / 1000) /
          (mathPi * (p175.inner_diameter / 2) ^ 2) * 4)
    ∧ |1000 * (1 / 1000 : ℚ) / (mathPi * ((7 / 4 : ℚ) / 2) ^ 2) * 4 -
        1664 / 1000| < 1 / 100 := by
  have key : ∀ (syringe : SyringeParams) (v : ℚ), syringe.inner_diameter ≠ 0 →
      volume_to_distance_converter syringe v =
        Except.ok (v * (1 / 1000) /
          (mathPi * (syringe.inner_diameter / 2) ^ 2) * 4) := by
    intro syringe v hd
    rw [v2d_ok hd]
    congr 1
    unfold conv_formula FROM_NANOLITERS UNIT_CONVERSION
    ring
  refine ⟨fun syringe v h => key syringe v (ne_of_gt h), ?_, ?_, ?_⟩
  · intro syringe h
    rw [key syringe 0 (ne_of_gt h)]
    norm_num
  · exact key p175 1000 (by norm_num [p175])
  · rw [abs_sub_lt_iff]
    constructor <;> · norm_num [mathPi]

/-- Witness for C2 at the 1.75 mm syringe: positive diameter, the exact
formula value at 1000 nL, and distance 0 at volume 0. -/
theorem volume_to_distance_formula_witness :
    0 < p175.inner_diameter
    ∧ volume_to_distance_converter p175 1000 =
        Except.ok (1000 * (1 / 1000) /
          (mathPi * (p175.inner_diameter / 2) ^ 2) * 4)
    ∧ volume_to_distance_converter p175 0 = Except.ok 0 :=
  ⟨by norm_num [p175],
   volume_to_distance_formula.1 p175 1000 (by norm_num [p175]),
   volume_to_distance_formula.2.1 p175 (by norm_num [p175])⟩

/-- C3: go_to_position issues exactly three motor directives for every
target, in the fixed order lift vertical axis, translate horizontal axes,
descend to the target vertical coordinate — never reordered, never merged.
The driver expansion is modelled from the spec because drivers/OTdriver.py is
not among the sources. -/
theorem go_to_position_three_phase (location : Point) :
    go_to_position_directives location =
      [Directive.liftZ, Directive.translateXY location.x location.y,
       Directive.descendZ location.z]
    ∧ (go_to_position_directives location).length = 3 := ⟨rfl, rfl⟩

/-- C4: for every deck map and state, a thermocycler-adjacent slot (7, 8, 10
or 11) makes go_to_deck_slot run open_lid first — a trace that contains the
device-level open command — and append the final translate only after the
lid flag reads open; any other slot yields exactly the translate, with no
lid command and the lid flag untouched. -/
theorem go_to_deck_slot_gating (gsc : ℚ → ℚ × ℚ) (s : MotorState) (slot : ℚ) :
    ((slot = 7 ∨ slot = 8 ∨ slot = 10 ∨ slot = 11) →
      (go_to_deck_slot gsc s slot).2 =
        (open_lid gsc s).2 ++ [Event.moveTo (some (slot_location gsc slot))]
      ∧ Event.deviceOpenLid ∈ (open_lid gsc s).2
      ∧ (open_lid gsc s).1.lidFlag = LidFlag.opened)
    ∧ (¬(slot = 7 ∨ slot = 8 ∨ slot = 10 ∨ slot = 11) →
      (go_to_deck_slot gsc s slot).2 =
        [Event.moveTo (some (slot_location gsc slot))]
      ∧ Event.deviceOpenLid ∉ (go_to_deck_slot gsc s slot).2
      ∧ (go_to_deck_slot gsc s slot).1.lidFlag = s.lidFlag) := by
  constructor
  · intro h
    refine ⟨?_, open_lid_mem_device gsc s, open_lid_flag gsc s⟩
    unfold go_to_deck_slot
    rw [if_pos h, if_pos (open_lid_flag gsc s)]
    rfl
  · intro h
    unfold go_to_deck_slot
    rw [if_neg h]
    refine ⟨rfl, ?_, rfl⟩
    simp [go_to_position]

/-- Witness for C4 at a concrete deck map and state: gated slot 7 and
non-gated slot 1. -/
theorem go_to_deck_slot_gating_witness :
    ((go_to_deck_slot test_deck s_origin 7).2 =
        (open_lid test_deck s_origin).2 ++
          [Event.moveTo (some (slot_location test_deck 7))]
      ∧ Event.deviceOpenLid ∈ (open_lid test_deck s_origin).2
      ∧ (open_lid test_deck s_origin).1.lidFlag = LidFlag.opened)
    ∧ ((go_to_deck_slot test_deck s_origin 1).2 =
        [Event.moveTo (some (slot_location test_deck 1))]
      ∧ Event.deviceOpenLid ∉ (go_to_deck_slot test_deck s_origin 1).2
      ∧ (go_to_deck_slot test_deck s_origin 1).1.lidFlag =
          s_origin.lidFlag) :=
  ⟨(go_to_deck_slot_gating test_deck s_origin 7).1 (by norm_num),
   (go_to_deck_slot_gating test_deck s_origin 1).2 (by norm_num)⟩

/-- C5: in the scenario with waste at (0,0,0), wash at (10,0,0), clean at
(20,0,0) and syringe bottom, top and sweet spot at 0, 100 and 50, start_wash
emits exactly moveTo waste, movePlunger 0, moveTo wash, movePlunger 100,
movePlunger 0, moveTo clean, movePlunger 50 and then the air gap — a lift of
the Z axis by the fixed clearance followed by aspirating the 50 nL air gap
volume — in that exact order, for any nonzero diameter, rate, and starting
state. -/
theorem start_wash_sequence (d rate : ℚ) (hd : d ≠ 0) (s : MotorState) :
    start_wash (wash_scenario_syringe d) wash_scenario_config s rate =
      Except.ok ({ s with pos := { x := 20, y := 0, z := 25 } },
        [Event.moveTo (some { x := 0, y := 0, z := 0 }),
         Event.movePlunger 0 (conv_formula d rate),
         Event.moveTo (some { x := 10, y := 0, z := 0 }),
         Event.movePlunger 100 (conv_formula d rate),
         Event.movePlunger 0 (conv_formula d rate),
         Event.moveTo (some { x := 20, y := 0, z := 0 }),
         Event.movePlunger 50 (conv_formula d rate),
         Event.moveTo (some { x := 20, y := 0, z := 25 }),
         Event.plungerUp (conv_formula d 50) (conv_formula d 50)]) := by
  simp only [start_wash, air_gap, go_to_position, move_plunger,
    wash_scenario_config, set_washing_positions, wash_scenario_syringe,
    AIR_GAP_ASPIRATING_Z_STEP_DISTANCE, AIR_GAP_NL_AMOUNT, DEFAULT_RATE]
  rw [f2s_ok hd rate, aspirate_ok hd 50 50]
  simp only [except_bind_ok, except_pure, Option.getD_some]
  norm_num [pyInt]

/-- Witness for C5 at diameter 1.75, rate 50 and the origin state. -/
theorem start_wash_sequence_witness :
    (7 / 4 : ℚ) ≠ 0
    ∧ start_wash (wash_scenario_syringe (7 / 4)) wash_scenario_config
        s_origin 50 =
      Except.ok ({ s_origin with pos := { x := 20, y := 0, z := 25 } },
        [Event.moveTo (some { x := 0, y := 0, z := 0 }),
         Event.movePlunger 0 (conv_formula (7 / 4) 50),
         Event.moveTo (some { x := 10, y := 0, z := 0 }),
         Event.movePlunger 100 (conv_formula (7 / 4) 50),
         Event.movePlunger 0 (conv_formula (7 / 4) 50),
         Event.moveTo (some { x := 20, y := 0, z := 0 }),
         Event.movePlunger 50 (conv_formula (7 / 4) 50),
         Event.moveTo (some { x := 20, y := 0, z := 25 }),
         Event.plungerUp (conv_formula (7 / 4) 50)
           (conv_formula (7 / 4) 50)]) :=
  ⟨by norm_num, start_wash_sequence (7 / 4) 50 (by norm_num) s_origin⟩

/-- C6 counterexample: with the negative inner diameter -1 (which is less
than or equal to 0) both converters succeed instead of failing with a
ConversionError, so the claim that conversion fails whenever the diameter is
nonpositive is false on the code. -/
theorem converters_negative_diameter_no_error :
    isOkE (volume_to_distance_converter pNeg 1000) = true
    ∧ isOkE (flowrate_to_speed_converter pNeg 50) = true
    ∧ volume_to_distance_converter pNeg 1000 ≠
        Except.error PyError.conversionError
    ∧ pNeg.inner_diameter ≤ 0 := by
  have hd : pNeg.inner_diameter ≠ 0 := by norm_num [pNeg]
  rw [v2d_ok hd, f2s_ok hd]
  exact ⟨rfl, rfl, by simp, by norm_num [pNeg]⟩

/-- C6 amended: the converters fail exactly when the inner diameter is zero,
and then with a division-by-zero error, never a ConversionError (which the
code does not define); for every nonzero diameter — positive or negative —
both converters succeed with a finite value. -/
theorem converters_fail_iff_zero_diameter (syringe : SyringeParams)
    (v r : ℚ) :
    (volume_to_distance_converter syringe v =
        Except.error PyError.zeroDivisionError ↔
      syringe.inner_diameter = 0)
    ∧ (flowrate_to_speed_converter syringe r =
        Except.error PyError.zeroDivisionError ↔
      syringe.inner_diameter = 0)
    ∧ (syringe.inner_diameter ≠ 0 →
        isOkE (volume_to_distance_converter syringe v) = true
        ∧ isOkE (flowrate_to_speed_converter syringe r) = true)
    ∧ volume_to_distance_converter syringe v ≠
        Except.error PyError.conversionError
    ∧ flowrate_to_speed_converter syringe r ≠
        Except.error PyError.conversionError := by
  rcases eq_or_ne syringe.inner_diameter 0 with h | h
  · rw [v2d_error h, f2s_error h]
    simp [h, isOkE]
  · rw [v2d_ok h, f2s_ok h]
    simp [h, isOkE]

/-- Witness for the amended C6 at the 1.75 mm syringe. -/
theorem converters_fail_iff_zero_diameter_witness :
    p175.inner_diameter ≠ 0
    ∧ isOkE (volume_to_distance_converter p175 1000) = true
    ∧ isOkE (flowrate_to_speed_converter p175 50) = true :=
  ⟨by norm_num [p175],
   ((converters_fail_iff_zero_diameter p175 1000 50).2.2.1
     (by norm_num [p175])).1,
   ((converters_fail_iff_zero_diameter p175 1000 50).2.2.1
     (by norm_num [p175])).2⟩

/-- C7 counterexample: invoked with the initial, unset washing-position
configuration and a valid syringe, start_wash, mid_wash and
fill_syringe_with_water all succeed instead of failing with a
ConfigurationError, so the claim that they fail before configuration is
false on the code. -/
theorem wash_unconfigured_no_configuration_error :
    isOkE (start_wash p175 initial_wash_config s_origin 50) = true
    ∧ isOkE (mid_wash p175 initial_wash_config 1000 s_origin 200 200 300
        50) = true
    ∧ isOkE (fill_syringe_with_water p175 initial_wash_config s_origin 50) =
        true := by
  have h : p175.inner_diameter ≠ 0 := by norm_num [p175]
  refine ⟨?_, ?_, ?_⟩
  · simp only [start_wash, air_gap, f2s_ok h, aspirate_ok h,
      except_bind_ok, except_pure]
    simp [isOkE]
  · simp only [mid_wash, air_gap, f2s_ok h, aspirate_ok h, dispense_ok h,
      except_bind_ok, except_pure]
    simp [isOkE]
  · simp only [fill_syringe_with_water, f2s_ok h, except_bind_ok,
      except_pure]
    simp [isOkE]

/-- C7 amended: the wash operations perform no configuration check and can
never raise a ConfigurationError (which the code does not define), whether
or not the washing positions have been set; invoked on the initial unset
configuration, start_wash begins by passing the unset None position straight
to the motion layer. -/
theorem wash_ops_no_configuration_error (syringe : SyringeParams)
    (cfg : WashConfig) (s : MotorState)
    (amount_wanted left_over cushion_1 cushion_2 rate : ℚ) :
    start_wash syringe cfg s rate ≠ Except.error PyError.configurationError
    ∧ mid_wash syringe cfg amount_wanted s left_over cushion_1 cushion_2
        rate ≠ Except.error PyError.configurationError
    ∧ fill_syringe_with_water syringe cfg s rate ≠
        Except.error PyError.configurationError
    ∧ (syringe.inner_diameter ≠ 0 →
        trace_head (start_wash syringe initial_wash_config s rate) =
          some (Event.moveTo none)) := by
  rcases eq_or_ne syringe.inner_diameter 0 with h | h
  · refine ⟨?_, ?_, ?_, fun hh => absurd h hh⟩
    · simp only [start_wash, f2s_error h, except_bind_error]
      simp
    · simp only [mid_wash, f2s_error h, except_bind_error]
      simp
    · simp only [fill_syringe_with_water, f2s_error h, except_bind_error]
      simp
  · refine ⟨?_, ?_, ?_, fun _ => ?_⟩
    · simp only [start_wash, air_gap, f2s_ok h, aspirate_ok h,
        except_bind_ok, except_pure]
      simp
    · simp only [mid_wash, air_gap, f2s_ok h, aspirate_ok h, dispense_ok h,
        except_bind_ok, except_pure]
      simp
    · simp only [fill_syringe_with_water, f2s_ok h, except_bind_ok,
        except_pure]
      simp
    · simp only [start_wash, air_gap, f2s_ok h, aspirate_ok h,
        except_bind_ok, except_pure, go_to_position, move_plunger,
        initial_wash_config]
      simp [trace_head]

/-- Witness for the amended C7 at the 1.75 mm syringe, the unset
configuration, the origin state and rate 50. -/
theorem wash_ops_no_configuration_error_witness :
    p175.inner_diameter ≠ 0
    ∧ trace_head (start_wash p175 initial_wash_config s_origin 50) =
        some (Event.moveTo none) :=
  ⟨by norm_num [p175],
   (wash_ops_no_configuration_error p175 initial_wash_config s_origin
     1000 200 200 300 50).2.2.2 (by norm_num [p175])⟩

/-- C8 counterexample: with nominal depth 5, the integer depth 7 exceeds the
nominal depth yet set_plate_depth returns None instead of the unmodified
default depth 5 claimed by the spec; the non-integer depth 2.5, although
strictly smaller than the nominal depth, also yields None instead of being
returned unchanged. -/
theorem set_plate_depth_excess_returns_none :
    set_plate_depth 5 (DepthArg.intDepth 7) = none
    ∧ set_plate_depth 5 (DepthArg.intDepth 7) ≠ some 5
    ∧ set_plate_depth 5 (DepthArg.floatDepth (5 / 2)) = none := by
  have h1 : set_plate_depth 5 (DepthArg.intDepth 7) = none := by
    norm_num [set_plate_depth]
  rw [h1]
  exact ⟨rfl, by simp, rfl⟩

/-- C8 amended: set_plate_depth returns the nominal depth minus 1 for the
default sentinel, returns the caller depth unchanged only when it is an
integer strictly smaller than the nominal depth, and returns None — not the
default depth — both when an integer depth reaches or exceeds the nominal
depth and when the depth is any non-integer numeric. -/
theorem set_plate_depth_cases (D : ℚ) :
    set_plate_depth D DepthArg.plateDepthSentinel = some (D - 1)
    ∧ (∀ n : ℤ, (n : ℚ) < D →
        set_plate_depth D (DepthArg.intDepth n) = some ((n : ℚ)))
    ∧ (∀ n : ℤ, D ≤ (n : ℚ) →
        set_plate_depth D (DepthArg.intDepth n) = none)
    ∧ (∀ q : ℚ, set_plate_depth D (DepthArg.floatDepth q) = none) := by
  refine ⟨rfl, ?_, ?_, fun q => rfl⟩
  · intro n h
    simp [set_plate_depth, h]
  · intro n h
    simp [set_plate_depth, not_lt.mpr h]

/-- Witness for the amended C8 at nominal depth 5 with integer depths 3 and
7 and the non-integer depth 2.5. -/
theorem set_plate_depth_cases_witness :
    (((3 : ℤ) : ℚ) < 5
      ∧ set_plate_depth 5 (DepthArg.intDepth 3) = some (((3 : ℤ) : ℚ)))
    ∧ ((5 : ℚ) ≤ ((7 : ℤ) : ℚ)
      ∧ set_plate_depth 5 (DepthArg.intDepth 7) = none)
    ∧ set_plate_depth 5 (DepthArg.floatDepth (5 / 2)) = none :=
  ⟨⟨by norm_num, (set_plate_depth_cases 5).2.1 3 (by norm_num)⟩,
   ⟨by norm_num, (set_plate_depth_cases 5).2.2.1 7 (by norm_num)⟩,
   (set_plate_depth_cases 5).2.2.2 (5 / 2)⟩

/-- C9 counterexample: calling open_lid when the lid flag already reads open
produces the trace consisting of exactly the device-level open command — the
safety repositioning move is skipped and a second device-level open command
is issued, so the claim that such a call changes nothing except the
repositioning move is false on the code. -/
theorem open_lid_already_open_counterexample :
    (open_lid test_deck s_open).2 = [Event.deviceOpenLid] := rfl

/-- C9 amended: open_lid is idempotent on the coordinator state — the lid
flag reads open after any call and a second consecutive call returns the
state of the first unchanged — but a call on an already-open lid skips the
safety repositioning and still reissues the device-level open command. -/
theorem open_lid_state_idempotent (gsc : ℚ → ℚ × ℚ) (s : MotorState) :
    (open_lid gsc s).1.lidFlag = LidFlag.opened
    ∧ open_lid gsc ((open_lid gsc s).1) =
        ((open_lid gsc s).1, [Event.deviceOpenLid])
    ∧ (s.lidFlag = LidFlag.opened →
        open_lid gsc s = (s, [Event.deviceOpenLid])) := by
  have already : ∀ t : MotorState, t.lidFlag = LidFlag.opened →
      open_lid gsc t = (t, [Event.deviceOpenLid]) := by
    intro t ht
    unfold open_lid
    rw [if_neg (by simp [ht])]
    cases t
    simp_all
  exact ⟨open_lid_flag gsc s,
    already _ (open_lid_flag gsc s), already s⟩

/-- Witness for the amended C9 at a concrete deck map and an already-open
state. -/
theorem open_lid_state_idempotent_witness :
    s_open.lidFlag = LidFlag.opened
    ∧ open_lid test_deck s_open = (s_open, [Event.deviceOpenLid]) :=
  ⟨rfl, (open_lid_state_idempotent test_deck s_open).2.2 rfl⟩

/-- C10: aspirate and dispense truncate their volume toward zero with int()
before conversion, so the commanded displacement equals the one for the
truncated integer volume; in particular any volume strictly between 0 and 1
commands the same plunger step as volume 0, whose converted displacement is
exactly 0. -/
theorem aspirate_dispense_truncate (syringe : SyringeParams) (v rate : ℚ) :
    aspirate syringe v rate = pick_up_liquid syringe ((pyInt v : ℤ) : ℚ) rate
    ∧ dispense syringe v rate =
        drop_off_liquid syringe ((pyInt v : ℤ) : ℚ) rate
    ∧ aspirate syringe v rate = aspirate syringe ((pyInt v : ℤ) : ℚ) rate
    ∧ dispense syringe v rate = dispense syringe ((pyInt v : ℤ) : ℚ) rate
    ∧ (0 < v → v < 1 →
        aspirate syringe v rate = aspirate syringe 0 rate
        ∧ dispense syringe v rate = dispense syringe 0 rate)
    ∧ (syringe.inner_diameter ≠ 0 →
        volume_to_distance_converter syringe 0 = Except.ok 0) := by
  have hidem : pyInt ((pyInt v : ℤ) : ℚ) = pyInt v := pyInt_intCast _
  have h3 : pyInt (0 : ℚ) = 0 := by unfold pyInt; norm_num
  refine ⟨rfl, rfl, ?_, ?_, ?_, ?_⟩
  · unfold aspirate
    rw [hidem]
  · unfold dispense
    rw [hidem]
  · intro h0 h1
    have h2 : pyInt v = 0 := by
      unfold pyInt
      rw [if_pos h0.le]
      exact Int.floor_eq_zero_iff.mpr (Set.mem_Ico.mpr ⟨h0.le, h1⟩)
    exact ⟨by unfold aspirate; rw [h2, h3],
      by unfold dispense; rw [h2, h3]⟩
  · intro h
    rw [v2d_ok h]
    simp [conv_formula]

/-- Witness for C10 at the 1.75 mm syringe with the fractional volume 0.5 at
rate 50. -/
theorem aspirate_dispense_truncate_witness :
    (0 : ℚ) < 1 / 2 ∧ (1 / 2 : ℚ) < 1 ∧ p175.inner_diameter ≠ 0
    ∧ aspirate p175 (1 / 2) 50 = aspirate p175 0 50
    ∧ dispense p175 (1 / 2) 50 = dispense p175 0 50
    ∧ volume_to_distance_converter p175 0 = Except.ok 0 :=
  ⟨by norm_num, by norm_num, by norm_num [p175],
   ((aspirate_dispense_truncate p175 (1 / 2) 50).2.2.2.2.1 (by norm_num)
     (by norm_num)).1,
   ((aspirate_dispense_truncate p175 (1 / 2) 50).2.2.2.2.1 (by norm_num)
     (by norm_num)).2,
   (aspirate_dispense_truncate p175 (1 / 2) 50).2.2.2.2.2
     (by norm_num [p175])⟩
